import Mathlib

/-!
Verification of the entrustash DAG-file persistence layer
(src/libentrustash/io.c, io_win32.c, entrustash.h).

The C function entrustash_io_prepare interacts with the filesystem through a
small set of platform calls (mkdir, fopen, fstat, fread, fseek, fputc,
fflush).  We embed it shallowly: the outcome of each platform call is an
input (an IoEnv record), and the function body is translated control-flow
node by control-flow node from io.c, with the goto labels (set_file,
free_memo, end) turned into explicit result records.  Machine integers
(size_t, uint64_t) are Nat with explicit reduction modulo 2 ^ 64 exactly
where the C arithmetic can wrap.
-/

namespace Entrustash

/-- Constants from entrustash.h (lines 29-41), with the literal values the
header defines.  Note that the header's comments are not part of the values:
ENTRUSTASH_CACHE_BYTES_INIT is defined as the literal 1073741824. -/
def ENTRUSTASH_REVISION : Nat := 23

def ENTRUSTASH_DATASET_BYTES_INIT : Nat := 1073741824

def ENTRUSTASH_DATASET_BYTES_GROWTH : Nat := 8388608

def ENTRUSTASH_CACHE_BYTES_INIT : Nat := 1073741824

def ENTRUSTASH_CACHE_BYTES_GROWTH : Nat := 131072

def ENTRUSTASH_EPOCH_LENGTH : Nat := 30000

def ENTRUSTASH_DAG_MAGIC_NUM_SIZE : Nat := 8

def ENTRUSTASH_DAG_MAGIC_NUM : Nat := 0xFEE1DEADBADDCAFE

/-- Modulus of the 64-bit size_t / uint64_t arithmetic used by io.c. -/
def SIZE_T_MOD : Nat := 2 ^ 64

/-- entrustash_mkdir from io_win32.c (lines 41-45):
returns rc different from -1, or errno equal to EEXIST. -/
def entrustash_mkdir (mkdir_rc : Int) (errno_is_eexist : Bool) : Bool :=
  decide (mkdir_rc ≠ -1) || errno_is_eexist

/-- Character code of the backslash separator appended by
entrustash_io_create_filename. -/
def BACKSLASH : Nat := 92

/-- Character code of the forward slash tested by the separator check. -/
def FWDSLASH : Nat := 47

/-- The directory-separator check of io_win32.c lines 60 and 70, applied to
the character it reads: the condition is, literally,
(c different from backslash) OR (c different from forward slash). -/
def sep_check (c : Nat) : Bool :=
  decide (c ≠ BACKSLASH) || decide (c ≠ FWDSLASH)

/-- entrustash_io_create_filename from io_win32.c (lines 52-75).  Strings
are lists of non-zero byte values; the C code indexes dirname[dirlen],
which is the terminating null byte of dirname, so the separator check is
evaluated on the character value 0.  malloc_ok models the malloc outcome
(line 63).  The result, when allocation succeeds, is the allocated size
dest_size together with the bytes accumulated by the strncat calls. -/
def entrustash_io_create_filename (dirname : List Nat) (filename : List Nat)
    (filename_length : Nat) (malloc_ok : Bool) : Option (Nat × List Nat) :=
  let dirlen := dirname.length
  let dest_size0 := dirlen + filename_length + 1
  -- dirname[dirlen] is the null terminator: character value 0
  let dest_size := if sep_check 0 then dest_size0 + 1 else dest_size0
  if malloc_ok then
    let name1 : List Nat := [] ++ dirname.take dirlen
    let name2 := if sep_check 0 then name1 ++ [BACKSLASH] else name1
    let name3 := name2 ++ filename.take filename_length
    some (dest_size, name3)
  else
    none

/-- Return codes of entrustash_io_prepare, from io.h as used by io.c. -/
inductive entrustash_io_rc where
  | ENTRUSTASH_IO_FAIL
  | ENTRUSTASH_IO_MEMO_SIZE_MISMATCH
  | ENTRUSTASH_IO_MEMO_MISMATCH
  | ENTRUSTASH_IO_MEMO_MATCH
deriving DecidableEq, Repr

/-- The mode a FILE handle was opened with inside entrustash_io_prepare:
rb for the existing file opened with "rb+" (io.c line 55), wb for the file
created or truncated with "wb+" (io.c line 88). -/
inductive FileMode where
  | rb
  | wb
deriving DecidableEq, Repr

/-- What happened to a FILE handle the function opened: it was fclosed
before returning, or it was handed back through *output_file. -/
inductive Disposition where
  | closed
  | returned
deriving DecidableEq, Repr

/-- Outcomes of the platform calls entrustash_io_prepare performs, in
program order.  found_size is the size_t value fstat reports (below
SIZE_T_MOD); magic_num is the uint64 read from the first 8 bytes. -/
structure IoEnv where
  mkdir_rc : Int
  mkdir_errno_eexist : Bool
  filename_malloc_ok : Bool
  file_openable : Bool
  size_query_ok : Bool
  found_size : Nat
  read_ok : Bool
  magic_num : Nat
  create_ok : Bool
  seek_ok : Bool
  putc_ok : Bool
  flush_ok : Bool
deriving DecidableEq, Repr

/-- What one call of entrustash_io_prepare did: the return code, the value
written through *output_file (none when the pointer is left untouched),
every FILE handle it opened with its disposition, and the total on-disk
size of the file when the create path ran to completion (the "wb+" open
truncates to zero, the fseek targets offset file_size + 8 - 1 and the fputc
writes one byte there, making the file offset + 1 bytes long). -/
structure PrepareResult where
  rc : entrustash_io_rc
  output_file : Option FileMode
  opened : List (FileMode × Disposition)
  created_total_size : Option Nat
deriving DecidableEq, Repr

/-- The payload-size expression of io.c line 63:
found_size - ENTRUSTASH_DAG_MAGIC_NUM_SIZE in size_t arithmetic, i.e.
subtraction modulo 2 ^ 64. -/
def payload_size (found_size : Nat) : Nat :=
  (found_size + SIZE_T_MOD - ENTRUSTASH_DAG_MAGIC_NUM_SIZE) % SIZE_T_MOD

/-- entrustash_io_prepare from io.c (lines 26-119), translated branch by
branch.  ret starts at ENTRUSTASH_IO_FAIL; goto end (mkdir failure) and
goto free_memo return the current ret without touching *output_file;
goto set_file stores the open handle through *output_file first.
The fseek offset (line 94) is computed in uint64 arithmetic; the cast to
long int is not modelled (it is lossless for any offset below 2 ^ 63). -/
def entrustash_io_prepare (env : IoEnv) (file_size : Nat) (force_create : Bool) :
    PrepareResult :=
  -- io.c line 40: if (!entrustash_mkdir(dirname)) goto end
  if entrustash_mkdir env.mkdir_rc env.mkdir_errno_eexist = false then
    ⟨.ENTRUSTASH_IO_FAIL, none, [], none⟩
  -- io.c line 47: if (!tmpfile) goto end
  else if env.filename_malloc_ok = false then
    ⟨.ENTRUSTASH_IO_FAIL, none, [], none⟩
  -- io.c lines 53-85: validation of an existing file, only without force_create
  else if !force_create && env.file_openable then
    -- io.c line 58: entrustash_file_size failure
    if env.size_query_ok = false then
      ⟨.ENTRUSTASH_IO_FAIL, none, [(.rb, .closed)], none⟩
    -- io.c line 63: payload size comparison
    else if file_size ≠ payload_size env.found_size then
      ⟨.ENTRUSTASH_IO_MEMO_SIZE_MISMATCH, none, [(.rb, .closed)], none⟩
    -- io.c line 70: fread of the magic number failed
    else if env.read_ok = false then
      ⟨.ENTRUSTASH_IO_MEMO_SIZE_MISMATCH, none, [(.rb, .closed)], none⟩
    -- io.c line 77: magic number comparison
    else if env.magic_num ≠ ENTRUSTASH_DAG_MAGIC_NUM then
      ⟨.ENTRUSTASH_IO_MEMO_SIZE_MISMATCH, none, [(.rb, .closed)], none⟩
    -- io.c lines 82-83: ret = MATCH; goto set_file
    else
      ⟨.ENTRUSTASH_IO_MEMO_MATCH, some .rb, [(.rb, .returned)], none⟩
  else
    -- io.c line 88: fopen(tmpfile, "wb+")
    if env.create_ok = false then
      ⟨.ENTRUSTASH_IO_FAIL, none, [], none⟩
    -- io.c line 94: fseek to file_size + ENTRUSTASH_DAG_MAGIC_NUM_SIZE - 1
    else if env.seek_ok = false then
      ⟨.ENTRUSTASH_IO_FAIL, none, [(.wb, .closed)], none⟩
    -- io.c line 99: fputc at that offset
    else if env.putc_ok = false then
      ⟨.ENTRUSTASH_IO_FAIL, none, [(.wb, .closed)], none⟩
    -- io.c line 104: fflush
    else if env.flush_ok = false then
      ⟨.ENTRUSTASH_IO_FAIL, none, [(.wb, .closed)], none⟩
    -- io.c lines 109-110: ret = MISMATCH; goto set_file
    else
      ⟨.ENTRUSTASH_IO_MEMO_MISMATCH, some .wb, [(.wb, .returned)],
        some ((file_size + ENTRUSTASH_DAG_MAGIC_NUM_SIZE - 1) % SIZE_T_MOD + 1)⟩

/-- C1: with force_create = false, entrustash_io_prepare returns MATCH if
and only if the existing file can be opened, its size can be queried, its
payload size (total size minus the 8-byte magic-number prefix, in size_t
arithmetic) equals the expected file_size, and its first 8 bytes can be
read and equal ENTRUSTASH_DAG_MAGIC_NUM; on MATCH the opened file is handed
back through *output_file.  The hypotheses state that the directory exists
or is created and the pathname allocation succeeds (the platform steps that
precede the file checks). -/
theorem C1_prepare_match_iff (env : IoEnv) (file_size : Nat)
    (hmk : entrustash_mkdir env.mkdir_rc env.mkdir_errno_eexist = true)
    (hfn : env.filename_malloc_ok = true) :
    ((entrustash_io_prepare env file_size false).rc
        = entrustash_io_rc.ENTRUSTASH_IO_MEMO_MATCH
      ↔ (env.file_openable = true ∧ env.size_query_ok = true
          ∧ payload_size env.found_size = file_size
          ∧ env.read_ok = true ∧ env.magic_num = ENTRUSTASH_DAG_MAGIC_NUM))
    ∧ ((entrustash_io_prepare env file_size false).rc
        = entrustash_io_rc.ENTRUSTASH_IO_MEMO_MATCH
      → (entrustash_io_prepare env file_size false).output_file
          = some FileMode.rb) := by
  obtain ⟨mk, ee, fn, fo, sq, fnd, ro, mg, co, sk, pu, fl⟩ := env
  simp only at hmk hfn
  subst hfn
  cases fo <;> cases sq <;> cases ro <;>
    by_cases hp : file_size = payload_size fnd <;>
    by_cases hm : mg = ENTRUSTASH_DAG_MAGIC_NUM <;>
    cases co <;> cases sk <;> cases pu <;> cases fl <;>
    simp_all [entrustash_io_prepare] <;>
    exact fun h => hp h.symm

/-- Concrete environment for the C1 witness: a file of total size 72
(payload 64) carrying the magic number, with every platform call
succeeding. -/
def c1_env : IoEnv :=
  ⟨0, false, true, true, true, 72, true,
    ENTRUSTASH_DAG_MAGIC_NUM, true, true, true, true⟩

/-- Witness for C1 at a concrete matching environment. -/
theorem C1_prepare_match_iff_witness :
    (entrustash_io_prepare c1_env 64 false).rc
      = entrustash_io_rc.ENTRUSTASH_IO_MEMO_MATCH :=
  (C1_prepare_match_iff c1_env 64 (by decide) (by decide)).1.mpr
    ⟨rfl, rfl, by decide, rfl, rfl⟩

/-- Concrete environment refuting C2: the existing file opens, its payload
size (16 - 8 = 8) equals the expected size 8, the first 8 bytes read as 0,
different from the magic number. -/
def c2_env : IoEnv :=
  ⟨0, false, true, true, true, 16, true, 0, true, true, true, true⟩

/-- C2 counterexample: on a file whose payload size matches but whose first
8 bytes differ from the magic number, entrustash_io_prepare returns
ENTRUSTASH_IO_MEMO_SIZE_MISMATCH, not the distinct MISMATCH status the
claim names (io.c line 79 sets SIZE_MISMATCH). -/
theorem C2_counterexample :
    (entrustash_io_prepare c2_env 8 false).rc
        ≠ entrustash_io_rc.ENTRUSTASH_IO_MEMO_MISMATCH
    ∧ (entrustash_io_prepare c2_env 8 false).rc
        = entrustash_io_rc.ENTRUSTASH_IO_MEMO_SIZE_MISMATCH := by
  constructor
  · decide
  · decide

/-- C2 (amended): for every existing DAG file whose payload size equals the
expected file_size but whose first 8 bytes do not equal the magic number,
entrustash_io_prepare returns ENTRUSTASH_IO_MEMO_SIZE_MISMATCH — the same
status as a size mismatch, not a distinct MISMATCH status. -/
theorem C2_magic_mismatch_rc (env : IoEnv) (file_size : Nat)
    (hmk : entrustash_mkdir env.mkdir_rc env.mkdir_errno_eexist = true)
    (hfn : env.filename_malloc_ok = true)
    (hfo : env.file_openable = true)
    (hsq : env.size_query_ok = true)
    (hro : env.read_ok = true)
    (hps : payload_size env.found_size = file_size)
    (hmg : env.magic_num ≠ ENTRUSTASH_DAG_MAGIC_NUM) :
    (entrustash_io_prepare env file_size false).rc
      = entrustash_io_rc.ENTRUSTASH_IO_MEMO_SIZE_MISMATCH := by
  obtain ⟨mk, ee, fn, fo, sq, fnd, ro, mg, co, sk, pu, fl⟩ := env
  simp only at hmk hfn hfo hsq hro hps hmg
  subst hfn hfo hsq hro
  simp [entrustash_io_prepare, hmk, hps, hmg]

/-- Witness for C2 (amended) at the concrete refuting environment. -/
theorem C2_magic_mismatch_rc_witness :
    (entrustash_io_prepare c2_env 8 false).rc
      = entrustash_io_rc.ENTRUSTASH_IO_MEMO_SIZE_MISMATCH :=
  C2_magic_mismatch_rc c2_env 8 (by decide) (by decide) (by decide)
    (by decide) (by decide) (by decide) (by decide)

/-- Helper shared by the size-mismatch facts: on an opened existing file
whose payload size differs from the expected file_size, the validation
path of entrustash_io_prepare returns SIZE_MISMATCH and not MATCH. -/
theorem rc_of_payload_ne (env : IoEnv) (file_size : Nat)
    (hmk : entrustash_mkdir env.mkdir_rc env.mkdir_errno_eexist = true)
    (hfn : env.filename_malloc_ok = true)
    (hfo : env.file_openable = true)
    (hsq : env.size_query_ok = true)
    (hne : payload_size env.found_size ≠ file_size) :
    (entrustash_io_prepare env file_size false).rc
        = entrustash_io_rc.ENTRUSTASH_IO_MEMO_SIZE_MISMATCH
    ∧ (entrustash_io_prepare env file_size false).rc
        ≠ entrustash_io_rc.ENTRUSTASH_IO_MEMO_MATCH := by
  obtain ⟨mk, ee, fn, fo, sq, fnd, ro, mg, co, sk, pu, fl⟩ := env
  simp only at hmk hfn hfo hsq hne
  subst hfn hfo hsq
  have hne2 : ¬(file_size = payload_size fnd) := fun h => hne h.symm
  simp [entrustash_io_prepare, hmk, hne2]

/-- C3: for every existing DAG file whose payload size (total size minus
the 8-byte prefix, in size_t arithmetic) differs from the expected
file_size, entrustash_io_prepare returns SIZE_MISMATCH and never MATCH. -/
theorem C3_size_mismatch (env : IoEnv) (file_size : Nat)
    (hmk : entrustash_mkdir env.mkdir_rc env.mkdir_errno_eexist = true)
    (hfn : env.filename_malloc_ok = true)
    (hfo : env.file_openable = true)
    (hsq : env.size_query_ok = true)
    (hne : payload_size env.found_size ≠ file_size) :
    (entrustash_io_prepare env file_size false).rc
        = entrustash_io_rc.ENTRUSTASH_IO_MEMO_SIZE_MISMATCH
    ∧ (entrustash_io_prepare env file_size false).rc
        ≠ entrustash_io_rc.ENTRUSTASH_IO_MEMO_MATCH :=
  rc_of_payload_ne env file_size hmk hfn hfo hsq hne

/-- Witness for C3: a file of total size 72 (payload 64) against an
expected size of 100. -/
theorem C3_size_mismatch_witness :
    (entrustash_io_prepare c1_env 100 false).rc
      = entrustash_io_rc.ENTRUSTASH_IO_MEMO_SIZE_MISMATCH :=
  (C3_size_mismatch c1_env 100
    (by decide) (by decide) (by decide) (by decide) (by decide)).1

/-- Concrete environment refuting C4: the existing file opens and its
payload size matches, but the fread of the first 8 bytes fails. -/
def c4_env : IoEnv :=
  ⟨0, false, true, true, true, 16, false,
    ENTRUSTASH_DAG_MAGIC_NUM, true, true, true, true⟩

/-- C4 counterexample: when the read of the magic number fails (io.c lines
70-76), entrustash_io_prepare returns ENTRUSTASH_IO_MEMO_SIZE_MISMATCH,
not the FAIL status the claim requires for every filesystem operation
failure. -/
theorem C4_counterexample :
    (entrustash_io_prepare c4_env 8 false).rc
        ≠ entrustash_io_rc.ENTRUSTASH_IO_FAIL
    ∧ (entrustash_io_prepare c4_env 8 false).rc
        = entrustash_io_rc.ENTRUSTASH_IO_MEMO_SIZE_MISMATCH := by
  constructor
  · decide
  · decide

/-- C4 (amended): every filesystem operation failure in
entrustash_io_prepare except the read of the magic number — directory
creation, size query, file creation, seek, write, flush — is surfaced as
ENTRUSTASH_IO_FAIL, distinct from MISMATCH and SIZE_MISMATCH; a failed
read of the magic number is surfaced as SIZE_MISMATCH instead. -/
theorem C4_io_failures (env : IoEnv) (file_size : Nat) (force_create : Bool) :
    (entrustash_mkdir env.mkdir_rc env.mkdir_errno_eexist = false →
      (entrustash_io_prepare env file_size force_create).rc
        = entrustash_io_rc.ENTRUSTASH_IO_FAIL)
    ∧ (entrustash_mkdir env.mkdir_rc env.mkdir_errno_eexist = true →
        env.filename_malloc_ok = true → force_create = false →
        env.file_openable = true → env.size_query_ok = false →
        (entrustash_io_prepare env file_size false).rc
          = entrustash_io_rc.ENTRUSTASH_IO_FAIL)
    ∧ (entrustash_mkdir env.mkdir_rc env.mkdir_errno_eexist = true →
        env.filename_malloc_ok = true → env.file_openable = false →
        (env.create_ok = false ∨ env.seek_ok = false ∨ env.putc_ok = false
          ∨ env.flush_ok = false) →
        (entrustash_io_prepare env file_size force_create).rc
          = entrustash_io_rc.ENTRUSTASH_IO_FAIL)
    ∧ (entrustash_mkdir env.mkdir_rc env.mkdir_errno_eexist = true →
        env.filename_malloc_ok = true → env.file_openable = true →
        env.size_query_ok = true → payload_size env.found_size = file_size →
        env.read_ok = false →
        (entrustash_io_prepare env file_size false).rc
          = entrustash_io_rc.ENTRUSTASH_IO_MEMO_SIZE_MISMATCH) := by
  obtain ⟨mk, ee, fn, fo, sq, fnd, ro, mg, co, sk, pu, fl⟩ := env
  refine ⟨fun hmk => ?_, fun hmk hfn hfc hfo hsq => ?_,
    fun hmk hfn hfo hio => ?_, fun hmk hfn hfo hsq hps hro => ?_⟩
  · simp [entrustash_io_prepare, hmk]
  · simp only at hfn hfo hsq
    subst hfn hfo hsq
    simp [entrustash_io_prepare, hmk]
  · simp only at hfn hfo
    subst hfn hfo
    rcases hio with h | h | h | h
    · simp only at h
      subst h
      simp [entrustash_io_prepare, hmk]
    · simp only at h
      subst h
      cases co <;> simp [entrustash_io_prepare, hmk]
    · simp only at h
      subst h
      cases co <;> cases sk <;> simp [entrustash_io_prepare, hmk]
    · simp only at h
      subst h
      cases co <;> cases sk <;> cases pu <;>
        simp [entrustash_io_prepare, hmk]
  · simp only at hfn hfo hsq hro
    subst hfn hfo hsq hro
    simp [entrustash_io_prepare, hmk, hps.symm]

/-- Concrete environment where mkdir fails: rc = -1 and errno is not
EEXIST. -/
def c4_mkdir_env : IoEnv :=
  ⟨-1, false, true, false, true, 16, true,
    ENTRUSTASH_DAG_MAGIC_NUM, true, true, true, true⟩

/-- Witness for C4 (amended): a failed directory creation yields FAIL, and
a failed magic-number read on a size-matching file yields SIZE_MISMATCH. -/
theorem C4_io_failures_witness :
    (entrustash_io_prepare c4_mkdir_env 8 false).rc
        = entrustash_io_rc.ENTRUSTASH_IO_FAIL
    ∧ (entrustash_io_prepare c4_env 8 false).rc
        = entrustash_io_rc.ENTRUSTASH_IO_MEMO_SIZE_MISMATCH :=
  ⟨(C4_io_failures c4_mkdir_env 8 false).1 (by decide),
   (C4_io_failures c4_env 8 false).2.2.2 (by decide) (by decide) (by decide)
     (by decide) (by decide) (by decide)⟩

/-- C5: when no DAG file exists at the derived path (the "rb+" open fails)
and force_create is false, entrustash_io_prepare takes the creation path:
an already-existing directory does not count as a mkdir failure (EEXIST),
a mkdir failure yields FAIL, and otherwise the file is created and
extended to a total size of file_size + ENTRUSTASH_DAG_MAGIC_NUM_SIZE
bytes by seek, write and flush, returning the non-MATCH status MISMATCH so
the caller regenerates the dataset. -/
theorem C5_create_path (env : IoEnv) (file_size : Nat)
    (hfo : env.file_openable = false)
    (hsize : file_size + ENTRUSTASH_DAG_MAGIC_NUM_SIZE - 1 < SIZE_T_MOD) :
    entrustash_mkdir (-1) true = true
    ∧ (entrustash_mkdir env.mkdir_rc env.mkdir_errno_eexist = false →
        (entrustash_io_prepare env file_size false).rc
          = entrustash_io_rc.ENTRUSTASH_IO_FAIL)
    ∧ (entrustash_mkdir env.mkdir_rc env.mkdir_errno_eexist = true →
        env.filename_malloc_ok = true → env.create_ok = true →
        env.seek_ok = true → env.putc_ok = true → env.flush_ok = true →
        (entrustash_io_prepare env file_size false).rc
            = entrustash_io_rc.ENTRUSTASH_IO_MEMO_MISMATCH
        ∧ (entrustash_io_prepare env file_size false).rc
            ≠ entrustash_io_rc.ENTRUSTASH_IO_MEMO_MATCH
        ∧ (entrustash_io_prepare env file_size false).created_total_size
            = some (file_size + ENTRUSTASH_DAG_MAGIC_NUM_SIZE)) := by
  obtain ⟨mk, ee, fn, fo, sq, fnd, ro, mg, co, sk, pu, fl⟩ := env
  simp only at hfo
  subst hfo
  refine ⟨by decide, fun hmk => ?_, fun hmk hfn hco hsk hpu hfl => ?_⟩
  · simp [entrustash_io_prepare, hmk]
  · simp only at hfn hco hsk hpu hfl
    subst hfn hco hsk hpu hfl
    refine ⟨by simp [entrustash_io_prepare, hmk],
      by simp [entrustash_io_prepare, hmk], ?_⟩
    simp only [SIZE_T_MOD, ENTRUSTASH_DAG_MAGIC_NUM_SIZE] at hsize
    simp [entrustash_io_prepare, hmk, SIZE_T_MOD, ENTRUSTASH_DAG_MAGIC_NUM_SIZE]
    omega

/-- Concrete environment for the C5 witness: the file does not exist and
every creation step succeeds; the directory mkdir reports EEXIST. -/
def c5_env : IoEnv :=
  ⟨-1, true, true, false, true, 0, true, 0, true, true, true, true⟩

/-- Witness for C5: creating a file for an expected payload of 64 bytes
yields MISMATCH and a file of total size 72. -/
theorem C5_create_path_witness :
    (entrustash_io_prepare c5_env 64 false).rc
        = entrustash_io_rc.ENTRUSTASH_IO_MEMO_MISMATCH
    ∧ (entrustash_io_prepare c5_env 64 false).created_total_size = some 72 := by
  have h := (C5_create_path c5_env 64 (by decide)
    (by norm_num [SIZE_T_MOD, ENTRUSTASH_DAG_MAGIC_NUM_SIZE])).2.2
    (by decide) (by decide) (by decide) (by decide) (by decide) (by decide)
  exact ⟨h.1, h.2.2⟩

/-- C6: the claim states ENTRUSTASH_CACHE_BYTES_INIT = 2 ^ 24 = 16777216,
as does the comment in entrustash.h line 32; the header actually defines
the constant as 1073741824 = 2 ^ 30, equal to ENTRUSTASH_DATASET_BYTES_INIT,
so the cache init constant is not 16MB-class and not smaller than the
dataset init constant. -/
theorem C6_cache_init_value :
    ENTRUSTASH_CACHE_BYTES_INIT = 2 ^ 30
    ∧ ENTRUSTASH_CACHE_BYTES_INIT ≠ 16777216
    ∧ ENTRUSTASH_CACHE_BYTES_INIT = ENTRUSTASH_DATASET_BYTES_INIT := by
  refine ⟨by norm_num [ENTRUSTASH_CACHE_BYTES_INIT], by decide, by decide⟩

/-- C7: the directory-separator check of entrustash_io_create_filename is
true for every character value (no character equals both the backslash and
the forward slash, so the disjunction of the two inequalities always
holds), hence a backslash is appended between dirname and filename
unconditionally — including when dirname already ends in a separator — and
the allocation size always includes the extra separator byte:
dirname length + filename length + 2. -/
theorem C7_separator_always_appended :
    (∀ c : Nat, sep_check c = true)
    ∧ ∀ dirname filename : List Nat,
        entrustash_io_create_filename dirname filename filename.length true
          = some (dirname.length + filename.length + 2,
              dirname ++ BACKSLASH :: filename) := by
  have hsep : ∀ c : Nat, sep_check c = true := by
    intro c
    simp only [sep_check, Bool.or_eq_true, decide_eq_true_eq]
    by_cases h : c = BACKSLASH
    · exact Or.inr (by simp [h, BACKSLASH, FWDSLASH])
    · exact Or.inl h
  refine ⟨hsep, fun dirname filename => ?_⟩
  simp [entrustash_io_create_filename, hsep 0, List.take_length]

/-- C8: with force_create = true, entrustash_io_prepare never validates a
pre-existing file and never returns MATCH: every handle it opens is the
truncating "wb+" one (never the "rb+" validation handle), and the result
is either the regeneration status MISMATCH or FAIL. -/
theorem C8_force_create_never_match (env : IoEnv) (file_size : Nat) :
    (entrustash_io_prepare env file_size true).rc
        ≠ entrustash_io_rc.ENTRUSTASH_IO_MEMO_MATCH
    ∧ ((entrustash_io_prepare env file_size true).rc
          = entrustash_io_rc.ENTRUSTASH_IO_MEMO_MISMATCH
        ∨ (entrustash_io_prepare env file_size true).rc
          = entrustash_io_rc.ENTRUSTASH_IO_FAIL)
    ∧ (entrustash_io_prepare env file_size true).opened.all
        (fun p => p.1 == FileMode.wb) = true := by
  obtain ⟨mk, ee, fn, fo, sq, fnd, ro, mg, co, sk, pu, fl⟩ := env
  cases hmk : entrustash_mkdir mk ee <;>
    cases fn <;> cases co <;> cases sk <;> cases pu <;> cases fl <;>
    simp [entrustash_io_prepare, hmk]

/-- C9: entrustash_io_prepare writes through *output_file exactly on the
return paths that reach the set_file label — it returns FAIL or
SIZE_MISMATCH precisely when *output_file is left untouched — and every
FILE handle it opened is either fclosed before returning or is the very
handle stored through *output_file. -/
theorem C9_output_file_frame (env : IoEnv) (file_size : Nat)
    (force_create : Bool) :
    (((entrustash_io_prepare env file_size force_create).rc
          = entrustash_io_rc.ENTRUSTASH_IO_FAIL
        ∨ (entrustash_io_prepare env file_size force_create).rc
          = entrustash_io_rc.ENTRUSTASH_IO_MEMO_SIZE_MISMATCH)
      ↔ (entrustash_io_prepare env file_size force_create).output_file = none)
    ∧ (entrustash_io_prepare env file_size force_create).opened.all
        (fun p => p.2 == Disposition.closed
          || (entrustash_io_prepare env file_size force_create).output_file
              == some p.1) = true := by
  simp only [entrustash_io_prepare]
  split_ifs <;> simp

/-- C10: on an existing file shorter than the 8-byte magic-number prefix,
the payload expression found_size - ENTRUSTASH_DAG_MAGIC_NUM_SIZE wraps
modulo 2 ^ 64 to a value of at least 2 ^ 64 - 8, so for every expected
file_size below 2 ^ 64 - 8 entrustash_io_prepare returns SIZE_MISMATCH on
such a truncated file rather than matching. -/
theorem C10_truncated_file_wraps (env : IoEnv) (file_size : Nat)
    (hmk : entrustash_mkdir env.mkdir_rc env.mkdir_errno_eexist = true)
    (hfn : env.filename_malloc_ok = true)
    (hfo : env.file_openable = true)
    (hsq : env.size_query_ok = true)
    (hsmall : env.found_size < ENTRUSTASH_DAG_MAGIC_NUM_SIZE)
    (hfs : file_size < 2 ^ 64 - 8) :
    2 ^ 64 - 8 ≤ payload_size env.found_size
    ∧ (entrustash_io_prepare env file_size false).rc
        = entrustash_io_rc.ENTRUSTASH_IO_MEMO_SIZE_MISMATCH
    ∧ (entrustash_io_prepare env file_size false).rc
        ≠ entrustash_io_rc.ENTRUSTASH_IO_MEMO_MATCH := by
  have hwrap : 2 ^ 64 - 8 ≤ payload_size env.found_size := by
    simp only [payload_size, SIZE_T_MOD, ENTRUSTASH_DAG_MAGIC_NUM_SIZE] at hsmall ⊢
    omega
  have hne : payload_size env.found_size ≠ file_size := by
    omega
  exact ⟨hwrap, (rc_of_payload_ne env file_size hmk hfn hfo hsq hne).1,
    (rc_of_payload_ne env file_size hmk hfn hfo hsq hne).2⟩

/-- Concrete environment for the C10 witness: the existing file is only 3
bytes long, shorter than the magic-number prefix. -/
def c10_env : IoEnv :=
  ⟨0, false, true, true, true, 3, true,
    ENTRUSTASH_DAG_MAGIC_NUM, true, true, true, true⟩

/-- Witness for C10: a 3-byte file against an expected payload of 64 bytes
yields SIZE_MISMATCH. -/
theorem C10_truncated_file_wraps_witness :
    2 ^ 64 - 8 ≤ payload_size 3
    ∧ (entrustash_io_prepare c10_env 64 false).rc
        = entrustash_io_rc.ENTRUSTASH_IO_MEMO_SIZE_MISMATCH := by
  have h := C10_truncated_file_wraps c10_env 64 (by decide) (by decide)
    (by decide) (by decide) (by decide) (by norm_num)
  exact ⟨h.1, h.2.1⟩

end Entrustash
